import Mathlib

/-!
Verification of the hyperparameter permutation and cross-validation core of
`reddit_cnn.py`.

The embedding below transcribes the relevant parts of the script:

* the argparse namespace and its default values (lines 249-343);
* the hyperparameter permutation planner (lines 484-504);
* the architecture dispatch and the training/evaluation driver loop
  (lines 506-614), with the observable actions (logfile creation, printed
  count, confirmation gate, `model.summary()`, `model.train`, metrics
  printing) recorded as an event trace and Python exceptions modelled with
  `Except`;
* the fold provider (lines 416-439): `sklearn.model_selection.KFold`
  (deterministic, `shuffle=False`) and `train_test_split` (the random
  permutation drawn from the numpy generator is an explicit argument).

Python floats carried by the command line (`--dropout`, `--split`) never
participate in any float arithmetic inside this core except for the
`test_size * n_samples` computation inside `train_test_split`; they are
modelled as exact non-negative ratios (`Ratio`, a numerator/denominator
pair), which keeps every definition kernel-executable.
-/

/-- An exact non-negative ratio standing for a Python float such as a dropout
rate or the `--split` train/test ratio. -/
structure Ratio where
  num : Nat
  den : Nat
deriving DecidableEq, Repr

/-- A Python value that can appear in one of the hyperparameter tuples the
planner builds: an int (filter size), a float (dropout rate) or a string
(activation name). -/
inductive PyVal where
  | int (n : Int)
  | float (r : Ratio)
  | str (s : String)
deriving DecidableEq, Repr

/-- The Python exceptions the embedded fragment can raise. `trainError` stands
for an arbitrary failure escaping the keras `model.train` call. -/
inductive PyErr where
  | attributeError (name : String)
  | nameError (name : String)
  | indexError
  | valueError (msg : String)
  | trainError (msg : String)
deriving DecidableEq, Repr

instance {ε α : Type} [DecidableEq ε] [DecidableEq α] :
    DecidableEq (Except ε α) := fun x y =>
  match x, y with
  | Except.ok a, Except.ok b =>
    if h : a = b then isTrue (by rw [h]) else isFalse (by simp [h])
  | Except.error e, Except.error f =>
    if h : e = f then isTrue (by rw [h]) else isFalse (by simp [h])
  | Except.ok _, Except.error _ => isFalse (by simp)
  | Except.error _, Except.ok _ => isFalse (by simp)

/-- A value stored in the argparse namespace. -/
inductive ArgVal where
  | vnone
  | vbool (b : Bool)
  | vint (n : Int)
  | vfloat (r : Ratio)
  | vstr (s : String)
  | vints (l : List Int)
  | vfloats (l : List Ratio)
  | vstrs (l : List String)
  | vpair (x y : Int)
deriving DecidableEq, Repr

/-- The argparse namespace `args` (lines 249-343): one field per
`parser.add_argument` dest, in source order.  Numeric arguments declared with
`type=int` are `Int`; float arguments are exact ratios. -/
structure Args where
  subreddits : Option (List String)
  noseed : Bool
  qry_lmt : Int
  max_features : Int
  seqlen : Int
  threshold : Int
  maxlen : Int
  minlen : Int
  scorerange : Option (Int × Int)
  negrange : Bool
  balanced : Bool
  batch_size : Int
  opt : String
  epochs : Int
  nb_filter : Int
  filters : List Int
  activation : List String
  dropout : List Ratio
  embed : Int
  l1 : Option Ratio
  l2 : Option Ratio
  split : Ratio
  batchnorm : Bool
  model : String
  logreg : Bool
  dry : Bool
  cm : Bool
  plot : Bool
  kfold : Int
  verbose : Int
  outfile : String
  logfile : Option String
  fromfile : Option String
deriving DecidableEq, Repr

/-- The parser defaults (lines 249-343).  `outfile`/`logfile` default to
`"output/" + time.strftime(...)`; the timestamp is represented by a fixed
stand-in string, which no claim depends on. -/
def defaultArgs : Args where
  subreddits := none
  noseed := false
  qry_lmt := 10000
  max_features := 5000
  seqlen := 100
  threshold := 1
  maxlen := 100
  minlen := 0
  scorerange := none
  negrange := false
  balanced := false
  batch_size := 32
  opt := "rmsprop"
  epochs := 5
  nb_filter := 100
  filters := [3]
  activation := ["relu"]
  dropout := [⟨25, 100⟩]
  embed := 100
  l1 := none
  l2 := none
  split := ⟨2, 10⟩
  batchnorm := false
  model := "simple"
  logreg := false
  dry := false
  cm := false
  plot := false
  kfold := 0
  verbose := 2
  outfile := "output/20160101-000000"
  logfile := some "output/20160101-000000"
  fromfile := none

/-- The attribute table of the argparse namespace: exactly the dests the
parser defines, mapped to their values.  Attribute access on `args` is lookup
in this table; a name the parser never registered raises `AttributeError`. -/
def argNamespace (a : Args) : List (String × ArgVal) :=
  [("subreddits", match a.subreddits with
      | some l => ArgVal.vstrs l
      | none => ArgVal.vnone),
   ("noseed", ArgVal.vbool a.noseed),
   ("qry_lmt", ArgVal.vint a.qry_lmt),
   ("max_features", ArgVal.vint a.max_features),
   ("seqlen", ArgVal.vint a.seqlen),
   ("threshold", ArgVal.vint a.threshold),
   ("maxlen", ArgVal.vint a.maxlen),
   ("minlen", ArgVal.vint a.minlen),
   ("scorerange", match a.scorerange with
      | some p => ArgVal.vpair p.1 p.2
      | none => ArgVal.vnone),
   ("negrange", ArgVal.vbool a.negrange),
   ("balanced", ArgVal.vbool a.balanced),
   ("batch_size", ArgVal.vint a.batch_size),
   ("opt", ArgVal.vstr a.opt),
   ("epochs", ArgVal.vint a.epochs),
   ("nb_filter", ArgVal.vint a.nb_filter),
   ("filters", ArgVal.vints a.filters),
   ("activation", ArgVal.vstrs a.activation),
   ("dropout", ArgVal.vfloats a.dropout),
   ("embed", ArgVal.vint a.embed),
   ("l1", match a.l1 with
      | some r => ArgVal.vfloat r
      | none => ArgVal.vnone),
   ("l2", match a.l2 with
      | some r => ArgVal.vfloat r
      | none => ArgVal.vnone),
   ("split", ArgVal.vfloat a.split),
   ("batchnorm", ArgVal.vbool a.batchnorm),
   ("model", ArgVal.vstr a.model),
   ("logreg", ArgVal.vbool a.logreg),
   ("dry", ArgVal.vbool a.dry),
   ("cm", ArgVal.vbool a.cm),
   ("plot", ArgVal.vbool a.plot),
   ("kfold", ArgVal.vint a.kfold),
   ("verbose", ArgVal.vint a.verbose),
   ("outfile", ArgVal.vstr a.outfile),
   ("logfile", match a.logfile with
      | some s => ArgVal.vstr s
      | none => ArgVal.vnone),
   ("fromfile", match a.fromfile with
      | some s => ArgVal.vstr s
      | none => ArgVal.vnone)]

/-- Python attribute access `getattr(args, name)`: looks the name up among the
dests the parser defined and raises `AttributeError` otherwise. -/
def getattr (a : Args) (name : String) : Except PyErr ArgVal :=
  match (argNamespace a).lookup name with
  | some v => Except.ok v
  | none => Except.error (PyErr.attributeError name)

/-- `itertools.product` over a list of axes: the leftmost axis varies
slowest, exactly the order `product(*s)` yields. -/
def pyProduct : List (List PyVal) → List (List PyVal)
  | [] => [[]]
  | l :: ls => l.flatMap (fun x => (pyProduct ls).map (fun t => x :: t))

/-- Lines 484-504: the list `models` of hyperparameter configurations.  When
some axis has more than one value, mode `"parallel"` takes the product of
dropout and activation only, any other mode the product of filter size,
dropout and activation; otherwise the single tuple
`(args.filters[0], args.dropout[0], args.activation[0])` is built directly
(lines 364-366 already index `[0]`, so the axes are non-empty whenever this
point is reached; `headD` stands for that indexing). -/
def modelsPlan (a : Args) : List (List PyVal) :=
  if 1 < a.filters.length ∨ 1 < a.dropout.length ∨ 1 < a.activation.length then
    if a.model = "parallel" then
      pyProduct [a.dropout.map PyVal.float, a.activation.map PyVal.str]
    else
      pyProduct [a.filters.map PyVal.int, a.dropout.map PyVal.float,
                 a.activation.map PyVal.str]
  else
    [[PyVal.int (a.filters.headD 0), PyVal.float (a.dropout.headD ⟨0, 1⟩),
      PyVal.str (a.activation.headD "")]]

/-- The general Cartesian-product path for the selected mode: the branch of
lines 490-498 applied unconditionally, with no degenerate fast path.
Modelled from the spec, which requires the fast path of `modelsPlan` to
coincide with it. -/
def productPathPlan (a : Args) : List (List PyVal) :=
  if a.model = "parallel" then
    pyProduct [a.dropout.map PyVal.float, a.activation.map PyVal.str]
  else
    pyProduct [a.filters.map PyVal.int, a.dropout.map PyVal.float,
               a.activation.map PyVal.str]

/-- Python tuple indexing `m[i]`: `IndexError` when out of range. -/
def item (m : List PyVal) (i : Nat) : Except PyErr PyVal :=
  match m.get? i with
  | some v => Except.ok v
  | none => Except.error PyErr.indexError

/-- The constructor invocation built for one configuration, with the
claim-relevant keyword arguments (lines 519-550). -/
inductive ModelCall where
  | simple (filter_size : PyVal) (activation : PyVal) (dropout_p : PyVal)
  | twolayer (filter_size : PyVal) (activation : PyVal) (dropout_p : PyVal)
  | parallel (filter_widths : ArgVal) (activation : PyVal) (dropout_p : PyVal)
deriving DecidableEq, Repr

/-- Lines 515-551: build the architecture for configuration `m`.  The keyword
arguments are evaluated in source order, so for `"parallel"` the attribute
access `args.filter_widths` (line 545) is evaluated before `m[1]` and `m[0]`.
An unrecognized name is handled in `runOneConfig`, not here. -/
def dispatchModel (a : Args) (m : List PyVal) : Except PyErr ModelCall :=
  if a.model = "simple" then do
    let fs ← item m 0
    let act ← item m 2
    let dp ← item m 1
    Except.ok (ModelCall.simple fs act dp)
  else if a.model = "twolayer" then do
    let fs ← item m 0
    let act ← item m 2
    let dp ← item m 1
    Except.ok (ModelCall.twolayer fs act dp)
  else if a.model = "parallel" then do
    let fw ← getattr a "filter_widths"
    let act ← item m 1
    let dp ← item m 0
    Except.ok (ModelCall.parallel fw act dp)
  else
    Except.error (PyErr.nameError "model")

/-- The observable actions of the run that the claims talk about. -/
inductive Event where
  | fileCreated (path : String)
  | printedCount (n : Nat)
  | askedGate
  | reportedNoValidArch (name : String)
  | summarized (call : ModelCall)
  | trainCalled (call : ModelCall) (fold : Nat)
  | printedMetrics
  | configSeparator
deriving DecidableEq, Repr

/-- The fold loop of lines 566-595 for folds `j, j+1, ...` while `rem` folds
remain: each iteration invokes `model.train`; a failure escaping the call
aborts the loop (there is no handler). -/
def foldLoop (call : ModelCall) (train : ModelCall → Nat → Except PyErr Unit) :
    Nat → Nat → List Event × Option PyErr
  | _, 0 => ([], none)
  | j, rem + 1 =>
    match train call j with
    | Except.error e => ([Event.trainCalled call j], some e)
    | Except.ok _ =>
      let rest := foldLoop call train (j + 1) rem
      (Event.trainCalled call j :: rest.1, rest.2)

/-- One iteration of the outer configuration loop (lines 509-614) with `k`
folds.  An unrecognized `--model` prints the report of line 552 and then
reaches `model.summary()` at line 553 with the name `model` unbound, raising
`NameError`; a known architecture is built (possibly raising), summarized,
and trained over the folds unless `--dry` is set. -/
def runOneConfig (a : Args) (k : Nat)
    (train : ModelCall → Nat → Except PyErr Unit) (m : List PyVal) :
    List Event × Option PyErr :=
  if a.model = "simple" ∨ a.model = "twolayer" ∨ a.model = "parallel" then
    match dispatchModel a m with
    | Except.error e => ([], some e)
    | Except.ok call =>
      if a.dry then ([Event.summarized call, Event.configSeparator], none)
      else
        match foldLoop call train 1 k with
        | (evs, some e) => (Event.summarized call :: evs, some e)
        | (evs, none) =>
          (Event.summarized call :: evs ++
            [Event.printedMetrics, Event.configSeparator], none)
  else
    ([Event.reportedNoValidArch a.model], some (PyErr.nameError "model"))

/-- The outer configuration loop (line 509): configurations run in order; an
exception escaping one iteration aborts the whole loop, since the body
contains no handler. -/
def runConfigs (a : Args) (k : Nat)
    (train : ModelCall → Nat → Except PyErr Unit) :
    List (List PyVal) → List Event × Option PyErr
  | [] => ([], none)
  | m :: rest =>
    match runOneConfig a k train m with
    | (evs, some e) => (evs, some e)
    | (evs, none) =>
      let r := runConfigs a k train rest
      (evs ++ r.1, r.2)

/-- Lines 346-349: the logfile `args.logfile + ".txt"` is opened by `vis.Tee`
at startup whenever `args.logfile` is set (its parser default is always a
string, so a plain run always creates it). -/
def logEvents (a : Args) : List Event :=
  match a.logfile with
  | some f => [Event.fileCreated (f ++ ".txt")]
  | none => []

/-- Lines 346-619, the driver: logfile creation, configuration count report
(line 506), confirmation gate (line 507), then — only on a yes answer — the
configuration loop over `modelsPlan` with `k` folds.  The result is the event
trace, the exception escaping to the top (none on normal completion), and the
process exit status (1 when an exception escapes, 0 otherwise; a declined
gate just skips the loop). -/
def runMain (a : Args) (gateAnswer : Bool)
    (train : ModelCall → Nat → Except PyErr Unit) (k : Nat) :
    List Event × Option PyErr × Nat :=
  let evs0 := logEvents a ++
    [Event.printedCount (modelsPlan a).length, Event.askedGate]
  if gateAnswer then
    match runConfigs a k train (modelsPlan a) with
    | (evs, some e) => (evs0 ++ evs, some e, 1)
    | (evs, none) => (evs0 ++ evs, none, 0)
  else
    (evs0, none, 0)

/-! ## The fold provider (lines 416-439) -/

/-- Start of the test block of fold `i` in sklearn `KFold(n_splits=k)` with
`shuffle=False` on `n` samples: the first `n % k` folds get `n / k + 1`
consecutive indices, the rest `n / k`. -/
def foldStart (n k i : Nat) : Nat :=
  i * (n / k) + min i (n % k)

/-- Size of the test block of fold `i` under sklearn `KFold(n_splits=k)`. -/
def foldSize (n k i : Nat) : Nat :=
  n / k + (if i < n % k then 1 else 0)

/-- Test indices of fold `i`: the consecutive block starting at
`foldStart n k i`. -/
def kfoldTestIdx (n k i : Nat) : List Nat :=
  (List.range (foldSize n k i)).map (fun j => foldStart n k i + j)

/-- Train indices of fold `i`: all dataset indices not in the test block, in
ascending order (sklearn returns `indices[logical_not(test_mask)]`). -/
def kfoldTrainIdx (n k i : Nat) : List Nat :=
  (List.range n).filter (fun x => decide (x ∉ kfoldTestIdx n k i))

/-- `KFold(n_splits=args.kfold)` and `kf.split(X)` (lines 425-427):
the constructor rejects `n_splits < 2` and `split` rejects more splits than
samples; otherwise the k (train, test) index pairs are produced in order. -/
def kfSplit (k : Int) (n : Nat) : Except PyErr (List (List Nat × List Nat)) :=
  if k < 2 then
    Except.error (PyErr.valueError "n_splits must be at least 2")
  else if (n : Int) < k then
    Except.error (PyErr.valueError "cannot have n_splits greater than samples")
  else
    Except.ok ((List.range k.toNat).map
      (fun i => (kfoldTrainIdx n k.toNat i, kfoldTestIdx n k.toNat i)))

/-- The test-set size sklearn computes for `train_test_split` with a float
`test_size`: the ceiling of `s * n` (see `nTestOf_eq_ceil`). -/
def nTestOf (s : Ratio) (n : Nat) : Nat :=
  (s.num * n + s.den - 1) / s.den

/-- `train_test_split(X, y, indices, test_size=s)` (lines 432-433) on `n`
indices: rejects a ratio outside (0, 1); otherwise takes `perm`, the random
permutation of `0..n-1` drawn from the numpy generator, and returns the
train indices (all but the first `nTestOf s n` entries) and the test indices
(the first `nTestOf s n` entries).  An empty resulting train set is
rejected. -/
def trainTestSplitIdx (perm : List Nat) (s : Ratio) :
    Except PyErr (List Nat × List Nat) :=
  let n := perm.length
  if s.num = 0 ∨ s.den ≤ s.num then
    Except.error (PyErr.valueError "test_size should be in (0, 1)")
  else if n - nTestOf s n = 0 then
    Except.error (PyErr.valueError "resulting train set will be empty")
  else
    Except.ok (perm.drop (nTestOf s n), perm.take (nTestOf s n))

/-- Lines 421-439: the list `folds`.  For `kfold > 0` the k-fold splits of
`KFold`, otherwise exactly one train/test pair from `train_test_split` sized
by `--split`. -/
def foldsFor (kfold : Int) (n : Nat) (split : Ratio) (perm : List Nat) :
    Except PyErr (List (List Nat × List Nat)) :=
  if 0 < kfold then
    kfSplit kfold n
  else do
    let p ← trainTestSplitIdx perm split
    Except.ok [(p.1, p.2)]

/-- Lines 416-439 with the ambient numpy generator state explicit: unless
`--noseed` was passed, the state is set to the constant `1234` before any
split is drawn.  `drawPerm` stands for the generator: a deterministic map
from state and size to the permutation `train_test_split` consumes. -/
def foldsRun (drawPerm : Nat → Nat → List Nat) (noseed : Bool)
    (rngState : Nat) (kfold : Int) (n : Nat) (split : Ratio) :
    Except PyErr (List (List Nat × List Nat)) :=
  let state := if noseed = true then rngState else 1234
  foldsFor kfold n split (drawPerm state n)

/-! ## Boolean statements of two spec sentences, used to refute them -/

/-- Spec sentence behind C8 at one input, following its words: the provider
returns exactly `k` folds (when it does not even return, the sentence
fails). -/
def kfoldReturnsKFolds (kfold : Int) (n : Nat) : Bool :=
  match foldsFor kfold n ⟨2, 10⟩ (List.range n) with
  | Except.ok fs => fs.length = kfold.toNat
  | Except.error _ => false

/-- Rounding half up: `round (a / d)` over the rationals, used only to state
the spec sentence behind C9. -/
def roundDiv (a d : Nat) : Nat :=
  (2 * a + d) / (2 * d)

/-- Spec sentence behind C9 at one input, following its words: for `k = 0`
the provider returns one fold whose test set has `round (s * n)` indices and
whose train set has the remaining ones. -/
def holdoutRoundClaim (n : Nat) (s : Ratio) (perm : List Nat) : Bool :=
  match foldsFor 0 n s perm with
  | Except.ok [p] =>
      p.2.length = roundDiv (s.num * n) s.den ∧
        p.1.length = n - roundDiv (s.num * n) s.den
  | _ => false

/-- Spec sentence behind C5, following its words: the trace contains no file
creation. -/
def noFilesCreated (evs : List Event) : Bool :=
  evs.all (fun e => match e with
    | Event.fileCreated _ => false
    | _ => true)

/-! ## Helper lemmas about the planner -/

lemma flatMap_singleton_eq_map {α β : Type} (f : α → β) (l : List α) :
    (l.flatMap fun x => [f x]) = l.map f := by
  induction l with
  | nil => rfl
  | cons a t ih => simp only [List.flatMap_cons, List.map_cons, ih,
      List.singleton_append]

lemma pyProduct_pair (A B : List PyVal) :
    pyProduct [A, B] = A.flatMap (fun x => B.map (fun y => [x, y])) := by
  simp [pyProduct, List.map_flatMap, List.map_map, Function.comp_def,
    flatMap_singleton_eq_map]

lemma pyProduct_triple (A B C : List PyVal) :
    pyProduct [A, B, C] =
      A.flatMap (fun x => B.flatMap (fun y => C.map (fun z => [x, y, z]))) := by
  simp [pyProduct, List.map_flatMap, List.map_map, Function.comp_def,
    flatMap_singleton_eq_map]

/-! ## Concrete argument vectors used by individual claims -/

/-- `--model parallel` with every axis left at its singleton default. -/
def argsParallelSingle : Args := { defaultArgs with model := "parallel" }

/-- `--model parallel -D 0.1 0.5`: a multi-valued dropout axis. -/
def argsParallelMulti : Args :=
  { defaultArgs with model := "parallel", dropout := [⟨1, 10⟩, ⟨5, 10⟩] }

/-- `--model parallel -D 0.1 0.5 -A relu tanh`: the grid of spec scenario
C6. -/
def argsParallelGrid : Args :=
  { defaultArgs with model := "parallel", dropout := [⟨1, 10⟩, ⟨5, 10⟩],
                     activation := ["relu", "tanh"] }

/-- `-F 3 5` with the default simple model: the grid of spec scenario C7. -/
def argsTwoFilters : Args := { defaultArgs with filters := [3, 5] }

/-- `--model foo -D 0.1 0.5`: an unrecognized architecture name over two
configurations. -/
def argsUnknownArch : Args :=
  { defaultArgs with model := "foo", dropout := [⟨1, 10⟩, ⟨5, 10⟩] }

/-- A training collaborator that always succeeds. -/
def trainOk : ModelCall → Nat → Except PyErr Unit := fun _ _ => Except.ok ()

/-- A training collaborator whose underlying call always fails. -/
def trainBoom : ModelCall → Nat → Except PyErr Unit :=
  fun _ _ => Except.error (PyErr.trainError "boom")

/-! ## Claim theorems: the permutation planner -/

/-- C6: in mode "parallel" with more than one value on some axis, the
planner returns exactly the Cartesian product of dropout and activation in
that axis order, dropout varying slowest and activation fastest. -/
theorem parallel_plan_is_dropout_activation_product (a : Args)
    (hmode : a.model = "parallel")
    (hmulti : 1 < a.filters.length ∨ 1 < a.dropout.length ∨
      1 < a.activation.length) :
    modelsPlan a = a.dropout.flatMap
      (fun d => a.activation.map (fun s => [PyVal.float d, PyVal.str s])) := by
  rw [modelsPlan, if_pos hmulti, if_pos hmode, pyProduct_pair,
    List.flatMap_map]
  simp [List.map_map, Function.comp_def]

/-- C6 witness: for dropout = [0.1, 0.5] and activation = ["relu", "tanh"]
the four configurations come out as (0.1,relu), (0.1,tanh), (0.5,relu),
(0.5,tanh), in that order. -/
theorem parallel_plan_is_dropout_activation_product_witness :
    argsParallelGrid.model = "parallel" ∧
    (1 < argsParallelGrid.filters.length ∨
      1 < argsParallelGrid.dropout.length ∨
      1 < argsParallelGrid.activation.length) ∧
    modelsPlan argsParallelGrid =
      [[PyVal.float ⟨1, 10⟩, PyVal.str "relu"],
       [PyVal.float ⟨1, 10⟩, PyVal.str "tanh"],
       [PyVal.float ⟨5, 10⟩, PyVal.str "relu"],
       [PyVal.float ⟨5, 10⟩, PyVal.str "tanh"]] :=
  ⟨rfl, by decide,
    (parallel_plan_is_dropout_activation_product argsParallelGrid rfl
      (by decide)).trans (by decide)⟩

/-- C7: in any mode other than "parallel" (including unrecognized names),
when some axis has more than one value the planner returns exactly the
Cartesian product of filter size, dropout and activation in that axis order,
the first axis varying slowest. -/
theorem full_plan_is_triple_product (a : Args)
    (hmode : a.model ≠ "parallel")
    (hmulti : 1 < a.filters.length ∨ 1 < a.dropout.length ∨
      1 < a.activation.length) :
    modelsPlan a = a.filters.flatMap (fun f => a.dropout.flatMap
      (fun d => a.activation.map
        (fun s => [PyVal.int f, PyVal.float d, PyVal.str s]))) := by
  rw [modelsPlan, if_pos hmulti, if_neg hmode, pyProduct_triple,
    List.flatMap_map]
  simp [List.flatMap_map, List.map_map, Function.comp_def]

/-- C7 witness: for filters = [3, 5], dropout = [0.25], activation =
["relu"] under mode "simple" the two configurations come out as
(3,0.25,relu), (5,0.25,relu), in that order. -/
theorem full_plan_is_triple_product_witness :
    argsTwoFilters.model ≠ "parallel" ∧
    (1 < argsTwoFilters.filters.length ∨ 1 < argsTwoFilters.dropout.length ∨
      1 < argsTwoFilters.activation.length) ∧
    modelsPlan argsTwoFilters =
      [[PyVal.int 3, PyVal.float ⟨25, 100⟩, PyVal.str "relu"],
       [PyVal.int 5, PyVal.float ⟨25, 100⟩, PyVal.str "relu"]] :=
  ⟨by decide, by decide,
    (full_plan_is_triple_product argsTwoFilters (by decide)
      (by decide)).trans (by decide)⟩

/-- C1 (code bug): with `--model parallel` and singleton axes
filters = [3], dropout = [0.25], activation = ["relu"], the degenerate fast
path yields the 3-tuple (3, 0.25, relu) while the parallel product path
yields the 2-tuple (0.25, relu), so the two are not identical; moreover the
CNN_Parallel call of lines 540-550 reads `m[0]` as `dropout_p` and `m[1]`
as `activation`, so on the degenerate tuple the dropout slot receives the
filter size 3 and the activation slot the dropout rate 0.25 (and the call
raises AttributeError on `args.filter_widths` even before that). -/
theorem degenerate_parallel_plan_mismatch :
    modelsPlan argsParallelSingle =
      [[PyVal.int 3, PyVal.float ⟨25, 100⟩, PyVal.str "relu"]] ∧
    productPathPlan argsParallelSingle =
      [[PyVal.float ⟨25, 100⟩, PyVal.str "relu"]] ∧
    modelsPlan argsParallelSingle ≠ productPathPlan argsParallelSingle ∧
    item [PyVal.int 3, PyVal.float ⟨25, 100⟩, PyVal.str "relu"] 0 =
      Except.ok (PyVal.int 3) ∧
    item [PyVal.int 3, PyVal.float ⟨25, 100⟩, PyVal.str "relu"] 1 =
      Except.ok (PyVal.float ⟨25, 100⟩) ∧
    dispatchModel argsParallelSingle
        [PyVal.int 3, PyVal.float ⟨25, 100⟩, PyVal.str "relu"] =
      Except.error (PyErr.attributeError "filter_widths") := by
  decide

/-- C2 (code bug): in mode "parallel" the constructor call of line 545 reads
`args.filter_widths`, an attribute the parser never defines (the filter list
lives under the dest "filters"), so every parallel configuration raises
AttributeError instead of receiving the filter-size list, and the run
aborts. -/
theorem parallel_filter_widths_attribute_error :
    (argNamespace argsParallelMulti).lookup "filter_widths" = none ∧
    (argNamespace argsParallelMulti).lookup "filters" =
      some (ArgVal.vints [3]) ∧
    getattr argsParallelMulti "filter_widths" =
      Except.error (PyErr.attributeError "filter_widths") ∧
    dispatchModel argsParallelMulti [PyVal.float ⟨1, 10⟩, PyVal.str "relu"] =
      Except.error (PyErr.attributeError "filter_widths") ∧
    runMain argsParallelMulti true trainOk 1 =
      ([Event.fileCreated "output/20160101-000000.txt",
        Event.printedCount 2, Event.askedGate],
       some (PyErr.attributeError "filter_widths"), 1) := by
  decide

/-- C3 (code bug): with `--model foo` over two planned configurations the
driver prints the "No valid architecture" report, but then falls through to
`model.summary()` (line 553) with the name `model` unbound, so the run
aborts with NameError and exit status 1 instead of skipping the
configuration and continuing with the next one. -/
theorem unknown_arch_aborts_run :
    runMain argsUnknownArch true trainOk 1 =
      ([Event.fileCreated "output/20160101-000000.txt",
        Event.printedCount 2, Event.askedGate,
        Event.reportedNoValidArch "foo"],
       some (PyErr.nameError "model"), 1) := by
  decide

/-! ## Claim theorems: the confirmation gate -/

/-- C5 counterexample: on a default run the trace of a declined gate already
contains a file creation, because the logfile is opened at startup (line
349), before the gate; so "no partial output files are created" fails. -/
theorem decline_gate_still_creates_logfile :
    noFilesCreated (runMain defaultArgs false trainOk 1).1 = false := by
  decide

/-- C5 (amended): the configuration count is reported and the gate is asked;
on a declined gate no configuration is evaluated, no training call happens,
no exception escapes, and the exit status is 0 — but the trace begins with
the logfile creation, which happened at startup before the gate. -/
theorem decline_gate_skips_all_training (a : Args)
    (train : ModelCall → Nat → Except PyErr Unit) (k : Nat) :
    runMain a false train k =
      (logEvents a ++
        [Event.printedCount (modelsPlan a).length, Event.askedGate],
       none, 0) := by
  rfl

/-! ## Claim theorems: the seed policy -/

/-- C10: when the seed policy is active (no `--noseed` flag), the generator
state is fixed to the constant 1234 before the folds are produced, so two
runs or two successive fold-provider invocations started at arbitrary
ambient generator states yield identical fold membership — for any
deterministic generator. -/
theorem seeded_folds_identical (drawPerm : Nat → Nat → List Nat)
    (state1 state2 : Nat) (kfold : Int) (n : Nat) (split : Ratio) :
    foldsRun drawPerm false state1 kfold n split =
      foldsRun drawPerm false state2 kfold n split := by
  rfl

/-! ## Claim theorems: failure handling in the driver loop -/

/-- C4 counterexample: on a two-configuration run whose training call fails,
the failure escapes the outer loop — the trace stops inside the first
configuration (the second is never summarized or trained), the exception
reaches the top, and the process exits with status 1.  No catching or
per-configuration reporting exists. -/
theorem training_failure_aborts_concrete :
    runMain argsTwoFilters true trainBoom 1 =
      ([Event.fileCreated "output/20160101-000000.txt",
        Event.printedCount 2, Event.askedGate,
        Event.summarized (ModelCall.simple (PyVal.int 3) (PyVal.str "relu")
          (PyVal.float ⟨25, 100⟩)),
        Event.trainCalled (ModelCall.simple (PyVal.int 3) (PyVal.str "relu")
          (PyVal.float ⟨25, 100⟩)) 1],
       some (PyErr.trainError "boom"), 1) := by
  decide

/-- A training collaborator that fails exactly on the filter-size-5 model
and succeeds on every other configuration. -/
def trainBoomOnFive : ModelCall → Nat → Except PyErr Unit :=
  fun c _ => match c with
    | ModelCall.simple (PyVal.int 5) _ _ => Except.error (PyErr.trainError "boom")
    | _ => Except.ok ()

lemma runConfigs_append_fail (a : Args) (k : Nat)
    (train : ModelCall → Nat → Except PyErr Unit)
    (pre : List (List PyVal)) (m : List PyVal) (rest : List (List PyVal))
    (e : PyErr)
    (hpre : ∀ p ∈ pre, (runOneConfig a k train p).2 = none)
    (hfail : (runOneConfig a k train m).2 = some e) :
    runConfigs a k train (pre ++ m :: rest) =
      (pre.flatMap (fun p => (runOneConfig a k train p).1) ++
        (runOneConfig a k train m).1, some e) := by
  induction pre with
  | nil =>
    simp only [List.nil_append, List.flatMap_nil]
    rcases hr : runOneConfig a k train m with ⟨evs, o⟩
    rw [hr] at hfail
    simp only at hfail
    subst hfail
    unfold runConfigs
    rw [hr]
  | cons p ps ih =>
    rcases hp : runOneConfig a k train p with ⟨evs, o⟩
    have ho : o = none := by
      have h := hpre p (by simp)
      rw [hp] at h
      simpa using h
    subst ho
    have hc := ih (fun q hq => hpre q (by simp [hq]))
    simp only [List.cons_append]
    unfold runConfigs
    rw [hp, hc]
    simp [hp]

/-- C4 (amended): a failure raised while instantiating or training any
planned configuration — all configurations before it having succeeded —
propagates out of the outer configuration loop unhandled: the run's trace
ends with the failing configuration's events, the exception escapes to the
top, the exit status is 1, and none of the configurations after it is
evaluated. -/
theorem training_failure_escapes_loop (a : Args) (k : Nat)
    (train : ModelCall → Nat → Except PyErr Unit)
    (pre : List (List PyVal)) (m : List PyVal) (rest : List (List PyVal))
    (e : PyErr)
    (hplan : modelsPlan a = pre ++ m :: rest)
    (hpre : ∀ p ∈ pre, (runOneConfig a k train p).2 = none)
    (hfail : (runOneConfig a k train m).2 = some e) :
    runMain a true train k =
      (logEvents a ++
        [Event.printedCount (pre ++ m :: rest).length, Event.askedGate] ++
        pre.flatMap (fun p => (runOneConfig a k train p).1) ++
        (runOneConfig a k train m).1,
       some e, 1) := by
  have hc := runConfigs_append_fail a k train pre m rest e hpre hfail
  unfold runMain
  rw [hplan, hc]
  simp

/-- C4 witness: the amended statement instantiated on the concrete
two-configuration run whose trainer succeeds on the first configuration
(filter size 3) and fails on the second (filter size 5): the failure in the
second configuration escapes and aborts the run. -/
theorem training_failure_escapes_loop_witness :
    modelsPlan argsTwoFilters =
      [[PyVal.int 3, PyVal.float ⟨25, 100⟩, PyVal.str "relu"]] ++
        [PyVal.int 5, PyVal.float ⟨25, 100⟩, PyVal.str "relu"] :: [] ∧
    (∀ p ∈ [[PyVal.int 3, PyVal.float ⟨25, 100⟩, PyVal.str "relu"]],
      (runOneConfig argsTwoFilters 1 trainBoomOnFive p).2 = none) ∧
    (runOneConfig argsTwoFilters 1 trainBoomOnFive
        [PyVal.int 5, PyVal.float ⟨25, 100⟩, PyVal.str "relu"]).2 =
      some (PyErr.trainError "boom") ∧
    runMain argsTwoFilters true trainBoomOnFive 1 =
      (logEvents argsTwoFilters ++
        [Event.printedCount
          ([[PyVal.int 3, PyVal.float ⟨25, 100⟩, PyVal.str "relu"]] ++
            [PyVal.int 5, PyVal.float ⟨25, 100⟩, PyVal.str "relu"] ::
              []).length,
         Event.askedGate] ++
        [[PyVal.int 3, PyVal.float ⟨25, 100⟩, PyVal.str "relu"]].flatMap
          (fun p => (runOneConfig argsTwoFilters 1 trainBoomOnFive p).1) ++
        (runOneConfig argsTwoFilters 1 trainBoomOnFive
          [PyVal.int 5, PyVal.float ⟨25, 100⟩, PyVal.str "relu"]).1,
       some (PyErr.trainError "boom"), 1) :=
  ⟨by decide, by decide, by decide,
    training_failure_escapes_loop argsTwoFilters 1 trainBoomOnFive
      [[PyVal.int 3, PyVal.float ⟨25, 100⟩, PyVal.str "relu"]]
      [PyVal.int 5, PyVal.float ⟨25, 100⟩, PyVal.str "relu"] []
      (PyErr.trainError "boom") (by decide) (by decide) (by decide)⟩

/-! ## Helper lemmas about the k-fold split -/

lemma foldStart_zero (n k : Nat) : foldStart n k 0 = 0 := by
  simp [foldStart]

lemma foldStart_succ (n k i : Nat) :
    foldStart n k (i + 1) = foldStart n k i + foldSize n k i := by
  unfold foldStart foldSize
  rcases Nat.lt_or_ge i (n % k) with h | h
  · rw [Nat.min_eq_left h, Nat.min_eq_left (Nat.le_of_lt h), if_pos h,
      Nat.succ_mul]
    omega
  · rw [Nat.min_eq_right (Nat.le_trans h (Nat.le_succ i)),
      Nat.min_eq_right h, if_neg (Nat.not_lt.mpr h), Nat.succ_mul]
    omega

lemma foldStart_k (n k : Nat) (hk : 0 < k) : foldStart n k k = n := by
  unfold foldStart
  rw [Nat.min_eq_right (Nat.le_of_lt (Nat.mod_lt n hk))]
  exact Nat.div_add_mod n k

lemma foldStart_mono (n k : Nat) {i j : Nat} (h : i ≤ j) :
    foldStart n k i ≤ foldStart n k j := by
  unfold foldStart
  exact Nat.add_le_add (Nat.mul_le_mul_right _ h) (min_le_min h (le_refl _))

lemma mem_kfoldTestIdx {n k i x : Nat} :
    x ∈ kfoldTestIdx n k i ↔
      foldStart n k i ≤ x ∧ x < foldStart n k (i + 1) := by
  rw [foldStart_succ]
  unfold kfoldTestIdx
  constructor
  · intro hx
    rcases List.mem_map.mp hx with ⟨j, hj, rfl⟩
    have hj2 := List.mem_range.mp hj
    omega
  · intro hx
    refine List.mem_map.mpr ⟨x - foldStart n k i, List.mem_range.mpr ?_, ?_⟩
      <;> omega

lemma exists_fold_of_lt (n k j x : Nat) (hx : x < foldStart n k j) :
    ∃ i, i < j ∧ foldStart n k i ≤ x ∧ x < foldStart n k (i + 1) := by
  induction j with
  | zero =>
    rw [foldStart_zero] at hx
    exact absurd hx (Nat.not_lt_zero x)
  | succ j ih =>
    rcases Nat.lt_or_ge x (foldStart n k j) with h | h
    · obtain ⟨i, hi, h1, h2⟩ := ih h
      exact ⟨i, by omega, h1, h2⟩
    · exact ⟨j, by omega, h, hx⟩

lemma kfoldTestIdx_disjoint_lt (n k : Nat) {i j x : Nat} (hij : i < j)
    (hx : x ∈ kfoldTestIdx n k i) : x ∉ kfoldTestIdx n k j := by
  intro hx2
  rw [mem_kfoldTestIdx] at hx hx2
  have h1 : foldStart n k (i + 1) ≤ foldStart n k j := foldStart_mono n k hij
  omega

lemma mem_testIdx_iff (n k : Nat) (hk : 0 < k) (x : Nat) :
    x < n ↔ ∃ i, i < k ∧ x ∈ kfoldTestIdx n k i := by
  constructor
  · intro hx
    obtain ⟨i, hi, h1, h2⟩ := exists_fold_of_lt n k k x
      (by rw [foldStart_k n k hk]; exact hx)
    exact ⟨i, hi, mem_kfoldTestIdx.mpr ⟨h1, h2⟩⟩
  · rintro ⟨i, hi, hx⟩
    rw [mem_kfoldTestIdx] at hx
    have h2 : foldStart n k (i + 1) ≤ foldStart n k k := foldStart_mono n k hi
    rw [foldStart_k n k hk] at h2
    omega

lemma mem_kfoldTrainIdx {n k i x : Nat} :
    x ∈ kfoldTrainIdx n k i ↔ x < n ∧ x ∉ kfoldTestIdx n k i := by
  unfold kfoldTrainIdx
  rw [List.mem_filter, List.mem_range]
  simp

lemma countP_range_eq_one (k : Nat) (p : Nat → Bool) (i0 : Nat)
    (hi0 : i0 < k) (hp : p i0 = true)
    (huniq : ∀ j, j < k → p j = true → j = i0) :
    (List.range k).countP p = 1 := by
  induction k with
  | zero => omega
  | succ k ih =>
    rw [List.range_succ, List.countP_append]
    rcases Nat.lt_or_ge i0 k with h | h
    · have hpk : p k = false := by
        rcases Bool.eq_false_or_eq_true (p k) with hb | hb
        · have := huniq k (Nat.lt_succ_self k) hb
          omega
        · exact hb
      have h1 : (List.range k).countP p = 1 :=
        ih h (fun j hj hpj => huniq j (Nat.lt_succ_of_lt hj) hpj)
      simp [h1, hpk, List.countP_cons]
    · have hik : i0 = k := by omega
      subst hik
      have h0 : (List.range i0).countP p = 0 := by
        apply List.countP_eq_zero.mpr
        intro j hj
        have hj2 := List.mem_range.mp hj
        intro hpj
        have := huniq j (Nat.lt_succ_of_lt hj2) hpj
        omega
      simp [h0, hp, List.countP_cons]

lemma countP_range_compl (k : Nat) (p : Nat → Bool) :
    (List.range k).countP (fun i => !p i) = k - (List.range k).countP p := by
  have h := List.length_eq_countP_add_countP p (List.range k)
  have h2 : (List.range k).countP (fun a => decide ¬(p a = true)) =
      (List.range k).countP (fun i => !p i) := by
    apply List.countP_congr
    intro a _
    cases p a <;> simp
  rw [List.length_range] at h
  omega

/-! ## Claim theorems: the fold provider -/

/-- C8 counterexample: for k = 1 (which the claim's "every k > 0" includes)
on 100 rows, sklearn's KFold constructor rejects the fold count, so the
provider raises ValueError instead of returning one fold — the claim as
stated is false at k = 1. -/
theorem kfold_claim_fails_at_one :
    kfoldReturnsKFolds 1 100 = false ∧
    foldsFor 1 100 ⟨2, 10⟩ (List.range 100) =
      Except.error (PyErr.valueError "n_splits must be at least 2") := by
  decide

/-- C8 (amended): for every k with 2 ≤ k ≤ n the provider returns exactly k
folds; their test-index sets cover exactly the indices below n, are pairwise
disjoint, and every index lies in exactly one test set and in the train sets
of exactly the other k - 1 folds. -/
theorem kfold_partition (k n : Nat) (hk : 2 ≤ k) (hkn : k ≤ n) :
    (∀ split perm, foldsFor (k : Int) n split perm = Except.ok
      ((List.range k).map
        (fun i => (kfoldTrainIdx n k i, kfoldTestIdx n k i)))) ∧
    ((List.range k).map
      (fun i => (kfoldTrainIdx n k i, kfoldTestIdx n k i))).length = k ∧
    (∀ x, x < n ↔ ∃ i, i < k ∧ x ∈ kfoldTestIdx n k i) ∧
    (∀ i j x, i < k → j < k → i ≠ j → x ∈ kfoldTestIdx n k i →
      x ∉ kfoldTestIdx n k j) ∧
    (∀ x, x < n →
      (List.range k).countP (fun i => decide (x ∈ kfoldTestIdx n k i)) = 1 ∧
      (List.range k).countP (fun i => decide (x ∈ kfoldTrainIdx n k i)) =
        k - 1) := by
  have hk0 : 0 < k := by omega
  refine ⟨?_, by simp, mem_testIdx_iff n k hk0, ?_, ?_⟩
  · intro split perm
    unfold foldsFor kfSplit
    rw [if_pos (by omega : (0:Int) < (k : Int))]
    rw [if_neg (by omega), if_neg (by omega)]
    simp
  · intro i j x hi hj hij hx
    rcases Nat.lt_or_ge i j with h | h
    · exact kfoldTestIdx_disjoint_lt n k h hx
    · have hj2 : j < i := by omega
      intro hx2
      exact kfoldTestIdx_disjoint_lt n k hj2 hx2 hx
  · intro x hx
    obtain ⟨i0, hi0, hmem⟩ := (mem_testIdx_iff n k hk0 x).mp hx
    have huniq : ∀ j, j < k →
        decide (x ∈ kfoldTestIdx n k j) = true → j = i0 := by
      intro j hj hd
      have hmj := of_decide_eq_true hd
      by_contra hne
      rcases Nat.lt_or_ge j i0 with h | h
      · exact kfoldTestIdx_disjoint_lt n k h hmj hmem
      · have h2 : i0 < j := by omega
        exact kfoldTestIdx_disjoint_lt n k h2 hmem hmj
    have h1 : (List.range k).countP
        (fun i => decide (x ∈ kfoldTestIdx n k i)) = 1 :=
      countP_range_eq_one k _ i0 hi0 (decide_eq_true hmem) huniq
    refine ⟨h1, ?_⟩
    have h2 : (List.range k).countP
        (fun i => decide (x ∈ kfoldTrainIdx n k i)) =
        (List.range k).countP
          (fun i => !(decide (x ∈ kfoldTestIdx n k i))) := by
      apply List.countP_congr
      intro i _
      constructor
      · intro hd
        have hm := of_decide_eq_true hd
        rw [mem_kfoldTrainIdx] at hm
        simp [hm.2]
      · intro hd
        rw [Bool.not_eq_true', decide_eq_false_iff_not] at hd
        exact decide_eq_true (mem_kfoldTrainIdx.mpr ⟨hx, hd⟩)
    rw [h2, countP_range_compl, h1]

/-- C8 witness: the amended statement instantiated at k = 5 folds on a
12-row dataset. -/
theorem kfold_partition_witness :
    2 ≤ 5 ∧ 5 ≤ 12 ∧
    ((∀ split perm, foldsFor (5 : Int) 12 split perm = Except.ok
      ((List.range 5).map
        (fun i => (kfoldTrainIdx 12 5 i, kfoldTestIdx 12 5 i)))) ∧
    ((List.range 5).map
      (fun i => (kfoldTrainIdx 12 5 i, kfoldTestIdx 12 5 i))).length = 5 ∧
    (∀ x, x < 12 ↔ ∃ i, i < 5 ∧ x ∈ kfoldTestIdx 12 5 i) ∧
    (∀ i j x, i < 5 → j < 5 → i ≠ j → x ∈ kfoldTestIdx 12 5 i →
      x ∉ kfoldTestIdx 12 5 j) ∧
    (∀ x, x < 12 →
      (List.range 5).countP (fun i => decide (x ∈ kfoldTestIdx 12 5 i)) = 1 ∧
      (List.range 5).countP (fun i => decide (x ∈ kfoldTrainIdx 12 5 i)) =
        5 - 1)) :=
  ⟨by decide, by decide, kfold_partition 5 12 (by decide) (by decide)⟩

/-! ## Helper lemmas about the holdout split -/

lemma ceil_div_nat (a d : Nat) (hd : 0 < d) :
    (((a + d - 1) / d : Nat) : Int) = ⌈(a : ℚ) / (d : ℚ)⌉ := by
  have hdm := Nat.div_add_mod (a + d - 1) d
  have hr := Nat.mod_lt (a + d - 1) hd
  generalize hm : (a + d - 1) / d = m at hdm ⊢
  have key1 : a ≤ d * m := by omega
  have key2 : d * m ≤ a + d - 1 := by omega
  have hdq : (0:ℚ) < (d:ℚ) := by exact_mod_cast hd
  symm
  rw [Int.ceil_eq_iff]
  constructor
  · rw [lt_div_iff₀ hdq]
    have key2q : (d:ℚ) * m ≤ (a:ℚ) + d - 1 := by
      have h1 : ((d * m : ℕ) : ℚ) ≤ ((a + d - 1 : ℕ) : ℚ) := by
        exact_mod_cast key2
      rw [Nat.cast_sub (by omega : 1 ≤ a + d)] at h1
      push_cast at h1
      linarith
    push_cast
    linarith
  · rw [div_le_iff₀ hdq]
    have key1q : (a:ℚ) ≤ (d:ℚ) * m := by exact_mod_cast key1
    push_cast
    linarith

/-- The test count of `trainTestSplitIdx` is the ceiling of `s * n`, the
quantity sklearn computes for a float `test_size` (and not, in particular,
its rounding). -/
lemma nTestOf_eq_ceil (s : Ratio) (n : Nat) (hd : 0 < s.den) :
    ((nTestOf s n : Nat) : Int) =
      ⌈((s.num * n : Nat) : ℚ) / ((s.den : Nat) : ℚ)⌉ := by
  unfold nTestOf
  exact ceil_div_nat (s.num * n) s.den hd

/-- C9 counterexample: for split ratio 0.21 on 10 rows the provider's single
fold has a test set of ceil(2.1) = 3 indices, not round(2.1) = 2, so the
claimed size round(s*n) is wrong. -/
theorem holdout_round_claim_fails :
    holdoutRoundClaim 10 ⟨21, 100⟩ (List.range 10) = false ∧
    foldsFor 0 10 ⟨21, 100⟩ (List.range 10) =
      Except.ok [([3, 4, 5, 6, 7, 8, 9], [0, 1, 2])] ∧
    roundDiv (21 * 10) 100 = 2 ∧
    nTestOf ⟨21, 100⟩ 10 = 3 := by
  decide

/-- C9 (amended): for k = 0 with a split ratio s strictly between 0 and 1
(and small enough to leave the train set non-empty) on n rows, the provider
returns exactly one fold whose test set has ceil(s*n) indices — the ceiling,
not the rounding, of s*n — and whose train set has the remaining n - ceil(s*n)
indices; the two sets are disjoint and together cover all n row indices. -/
theorem holdout_split (n : Nat) (s : Ratio) (perm : List Nat)
    (hperm : perm.Perm (List.range n)) (hpos : 0 < s.num)
    (hlt : s.num < s.den) (hts : nTestOf s n < n) :
    foldsFor 0 n s perm = Except.ok
      [(perm.drop (nTestOf s n), perm.take (nTestOf s n))] ∧
    ((nTestOf s n : Nat) : Int) =
      ⌈((s.num * n : Nat) : ℚ) / ((s.den : Nat) : ℚ)⌉ ∧
    (perm.take (nTestOf s n)).length = nTestOf s n ∧
    (perm.drop (nTestOf s n)).length = n - nTestOf s n ∧
    (∀ x, x ∈ perm.take (nTestOf s n) → x ∉ perm.drop (nTestOf s n)) ∧
    (∀ x, x < n ↔
      (x ∈ perm.drop (nTestOf s n) ∨ x ∈ perm.take (nTestOf s n))) := by
  have hlen : perm.length = n := by simpa using hperm.length_eq
  have hnodup : perm.Nodup := hperm.nodup_iff.mpr (List.nodup_range n)
  have hsplit : trainTestSplitIdx perm s = Except.ok
      (perm.drop (nTestOf s n), perm.take (nTestOf s n)) := by
    unfold trainTestSplitIdx
    rw [hlen]
    rw [if_neg (by omega), if_neg (by omega)]
  refine ⟨?_, nTestOf_eq_ceil s n (by omega), ?_, ?_, ?_, ?_⟩
  · unfold foldsFor
    rw [if_neg (by omega : ¬ (0:Int) < 0), hsplit]
    rfl
  · simp [List.length_take]
    omega
  · simp [List.length_drop]
    omega
  · have hsplitperm := List.take_append_drop (nTestOf s n) perm
    have hnd2 : (perm.take (nTestOf s n) ++ perm.drop (nTestOf s n)).Nodup := by
      rw [hsplitperm]
      exact hnodup
    exact fun x hx => (List.nodup_append.mp hnd2).2.2 hx
  · intro x
    constructor
    · intro hx
      have hx2 : x ∈ perm := (hperm.mem_iff).mpr (List.mem_range.mpr hx)
      rw [← List.take_append_drop (nTestOf s n) perm, List.mem_append] at hx2
      tauto
    · intro hx
      have hx2 : x ∈ perm := by
        rw [← List.take_append_drop (nTestOf s n) perm, List.mem_append]
        tauto
      exact List.mem_range.mp ((hperm.mem_iff).mp hx2)

/-- C9 witness: the amended statement instantiated for split ratio 0.2 on
10 rows with the identity permutation. -/
theorem holdout_split_witness :
    (List.range 10).Perm (List.range 10) ∧ 0 < (2 : Nat) ∧ 2 < 10 ∧
    nTestOf ⟨2, 10⟩ 10 < 10 ∧
    (foldsFor 0 10 ⟨2, 10⟩ (List.range 10) = Except.ok
      [((List.range 10).drop (nTestOf ⟨2, 10⟩ 10),
        (List.range 10).take (nTestOf ⟨2, 10⟩ 10))] ∧
    ((nTestOf ⟨2, 10⟩ 10 : Nat) : Int) =
      ⌈((Ratio.num ⟨2, 10⟩ * 10 : Nat) : ℚ) /
        ((Ratio.den ⟨2, 10⟩ : Nat) : ℚ)⌉ ∧
    ((List.range 10).take (nTestOf ⟨2, 10⟩ 10)).length =
      nTestOf ⟨2, 10⟩ 10 ∧
    ((List.range 10).drop (nTestOf ⟨2, 10⟩ 10)).length =
      10 - nTestOf ⟨2, 10⟩ 10 ∧
    (∀ x, x ∈ (List.range 10).take (nTestOf ⟨2, 10⟩ 10) →
      x ∉ (List.range 10).drop (nTestOf ⟨2, 10⟩ 10)) ∧
    (∀ x, x < 10 ↔
      (x ∈ (List.range 10).drop (nTestOf ⟨2, 10⟩ 10) ∨
        x ∈ (List.range 10).take (nTestOf ⟨2, 10⟩ 10)))) :=
  ⟨List.Perm.refl _, by decide, by decide, by decide,
    holdout_split 10 ⟨2, 10⟩ (List.range 10) (List.Perm.refl _)
      (by decide) (by decide) (by decide)⟩
